import Mathlib

/-!
Verification of the SIC/XE two-pass assembler (`src/SICXE/`): a shallow
embedding of `constants.py`, `utils.py`, `pass1.py` and `pass2.py` in Lean,
with theorems settling the specification claims.  Python strings are Lean
`String`s (lists of characters); Python `int` is `Int` (arbitrary precision);
Python exceptions are `Except String`; Python dicts keyed by strings are
association lists looked up by first match.  The embedding follows the
Python source line by line; comments cite the source file and line numbers.
-/

namespace SICXE

/-- Decidable equality for `Except` (needed to settle closed statements
about runs of the embedded passes by evaluation). -/
instance {ε α : Type} [DecidableEq ε] [DecidableEq α] :
    DecidableEq (Except ε α) := fun a b =>
  match a, b with
  | .ok x, .ok y =>
    if h : x = y then .isTrue (by rw [h]) else .isFalse (by simp [h])
  | .error x, .error y =>
    if h : x = y then .isTrue (by rw [h]) else .isFalse (by simp [h])
  | .ok _, .error _ => .isFalse (by simp)
  | .error _, .ok _ => .isFalse (by simp)

/-! ### Character and string helpers (Python built-ins) -/

/-- Python `str.isspace` / `str.strip` whitespace set, restricted to the ASCII
whitespace characters (the assembler input is ASCII text). -/
def pyIsSpace (c : Char) : Bool :=
  c = ' ' || c = '\t' || c = '\n' || c = '\r' || c = Char.ofNat 11 || c = Char.ofNat 12

/-- Python `s.strip()`: remove leading and trailing whitespace. -/
def pyStrip (l : List Char) : List Char :=
  List.rdropWhile pyIsSpace (List.dropWhile pyIsSpace l)

/-- `s.strip()` on a `String`. -/
def strStrip (s : String) : String := String.mk (pyStrip s.data)

/-- Python `s.upper()` (ASCII). -/
def pyUpper (s : String) : String := String.mk (s.data.map Char.toUpper)

/-- `a.startswith(b)`. -/
def strStarts (s pre : String) : Bool := pre.data.isPrefixOf s.data

/-- `a.endswith(b)`. -/
def strEnds (s suf : String) : Bool := suf.data.isSuffixOf s.data

/-- `s[n:]`. -/
def strDrop (s : String) (n : Nat) : String := String.mk (s.data.drop n)

/-- Python `str.split()` with no argument: split on runs of whitespace,
dropping empty tokens. -/
def wsSplitAux : List Char → List Char → List String
  | [], cur => if cur = [] then [] else [String.mk cur.reverse]
  | c :: rest, cur =>
    if pyIsSpace c then
      if cur = [] then wsSplitAux rest []
      else String.mk cur.reverse :: wsSplitAux rest []
    else wsSplitAux rest (c :: cur)

def wsSplit (l : List Char) : List String := wsSplitAux l []

/-- Parse a nonempty all-decimal-digit string to a `Nat`. -/
def parseDecDigits (l : List Char) : Option Nat :=
  if l = [] then none
  else if l.all Char.isDigit then
    some (l.foldl (fun acc c => acc * 10 + (c.toNat - 48)) 0)
  else none

/-- Python `int(s)` (base 10): optional surrounding whitespace, optional
sign, then decimal digits.  (Underscore digit separators are not modelled;
no input in this development contains them.) -/
def pyIntDec? (s : String) : Option Int :=
  match pyStrip s.data with
  | '+' :: rest => (parseDecDigits rest).map Int.ofNat
  | '-' :: rest => (parseDecDigits rest).map (fun n => -(n : Int))
  | t => (parseDecDigits t).map Int.ofNat

/-- Value of one hexadecimal digit. -/
def hexDigitVal (c : Char) : Option Nat :=
  if '0' ≤ c ∧ c ≤ '9' then some (c.toNat - 48)
  else if 'a' ≤ c ∧ c ≤ 'f' then some (c.toNat - 87)
  else if 'A' ≤ c ∧ c ≤ 'F' then some (c.toNat - 55)
  else none

def parseHexDigits (l : List Char) : Option Nat :=
  if l = [] then none
  else if l.all (fun c => (hexDigitVal c).isSome) then
    some (l.foldl (fun acc c => acc * 16 + (hexDigitVal c).getD 0) 0)
  else none

/-- Strip an optional `0x` / `0X` prefix (allowed by Python `int(s, 16)`). -/
def dropHexPre (l : List Char) : List Char :=
  match l with
  | '0' :: 'x' :: rest => rest
  | '0' :: 'X' :: rest => rest
  | t => t

/-- Python `int(s, 16)`: optional whitespace, optional sign, optional `0x`,
then hex digits. -/
def pyIntHex? (s : String) : Option Int :=
  match pyStrip s.data with
  | '+' :: rest => (parseHexDigits (dropHexPre rest)).map Int.ofNat
  | '-' :: rest => (parseHexDigits (dropHexPre rest)).map (fun n => -(n : Int))
  | t => (parseHexDigits (dropHexPre t)).map Int.ofNat

/-- Uppercase hexadecimal digits of a `Nat` (no padding), like Python
`format(n, 'X')`. -/
def natToHexUpper (n : Nat) : String :=
  String.mk ((Nat.toDigits 16 n).map Char.toUpper)

/-- Left-pad with `'0'` to a minimum width. -/
def padZero (s : String) (w : Nat) : String :=
  String.mk (List.replicate (w - s.data.length) '0') ++ s

/-- Python `format(n, f'0{w}X')` for a nonnegative value. -/
def natFormatX (n : Nat) (w : Nat) : String := padZero (natToHexUpper n) w

/-- Python `format(v, f'0{w}X')` for a possibly negative `int` (the sign
occupies one column of the width, as in Python). -/
def pyFormatXInt (v : Int) (w : Nat) : String :=
  if v < 0 then "-" ++ natFormatX v.natAbs (w - 1) else natFormatX v.toNat w

/-- `utils.format_hex` (utils.py lines 192-197): two's-complement a negative
value into `length*4` bits, then format as hex with zero padding. -/
def format_hex (v : Int) (length : Nat) : String :=
  pyFormatXInt (if v < 0 then (2 ^ (length * 4) : Nat) + v else v) length

/-! ### constants.py -/

/-- `constants.OPCODES`: mnemonic ↦ (hex opcode, format number). -/
def OPCODES : List (String × String × Nat) :=
  [("CADD", "18", 3), ("ADD", "18", 3), ("ADDF", "58", 3), ("ADDR", "90", 2),
   ("AND", "40", 3), ("CLEAR", "B4", 2), ("CLOAD", "08", 3), ("COMP", "28", 3),
   ("COMPF", "88", 3), ("COMPR", "A0", 2), ("DIV", "24", 3), ("DIVF", "64", 3),
   ("DIVR", "9C", 2), ("J", "3C", 3), ("JEQ", "30", 3), ("JGT", "34", 3),
   ("JLT", "38", 3), ("JSUB", "48", 3), ("LDA", "00", 3), ("LDB", "68", 3),
   ("LDCH", "50", 3), ("LDF", "70", 3), ("LDL", "08", 3), ("LDS", "6C", 3),
   ("LDT", "74", 3), ("LDX", "04", 3), ("MUL", "20", 3), ("MULF", "60", 3),
   ("MULR", "98", 2), ("OR", "44", 3), ("RD", "D8", 3), ("RMO", "AC", 2),
   ("RSUB", "4C", 3), ("SHIFTL", "A4", 2), ("SHIFTR", "A8", 2), ("STA", "0C", 3),
   ("STB", "78", 3), ("STCH", "54", 3), ("STF", "80", 3), ("STI", "D4", 3),
   ("STL", "14", 3), ("STS", "7C", 3), ("STSW", "E8", 3), ("STT", "84", 3),
   ("STX", "10", 3), ("SUB", "1C", 3), ("SUBF", "5C", 3), ("SUBR", "94", 2),
   ("SVC", "B0", 2), ("TD", "E0", 3), ("TIX", "2C", 3), ("TIXR", "B8", 2),
   ("WD", "DC", 3), ("FIX", "C4", 1), ("FLOAT", "C0", 1), ("HIO", "F4", 1),
   ("NORM", "C8", 1), ("SIO", "F0", 1), ("TIO", "F8", 1)]

/-- `mnemonic in OPCODES`. -/
def inOPCODES (s : String) : Bool := OPCODES.any (fun e => e.1 == s)

/-- `OPCODES[mnemonic]`. -/
def opcodeLookup (s : String) : Option (String × Nat) :=
  (OPCODES.find? (fun e => e.1 == s)).map (fun e => e.2)

/-- `constants.REGISTERS`. -/
def REGISTERS : List (String × Nat) :=
  [("A", 0), ("X", 1), ("L", 2), ("B", 3), ("S", 4), ("T", 5), ("F", 6),
   ("PC", 8), ("SW", 9), ("Z", 0)]

def inREGISTERS (s : String) : Bool := REGISTERS.any (fun e => e.1 == s)

def registerLookup (s : String) : Option Nat :=
  (REGISTERS.find? (fun e => e.1 == s)).map (fun e => e.2)

/-- `constants.DIRECTIVES`. -/
def DIRECTIVES : List String :=
  ["START", "END", "BYTE", "WORD", "RESB", "RESW", "BASE", "NOBASE"]

def inDIRECTIVES (s : String) : Bool := DIRECTIVES.any (fun e => e == s)

/-- Symbol-table lookup (Python dict access by key). -/
def lookupSym (t : List (String × Int)) (k : String) : Option Int :=
  (t.find? (fun e => e.1 == k)).map (fun e => e.2)

/-! ### utils.py: parsing -/

/-- `utils.is_number` on a `String` (utils.py lines 161-174): try `int(s)`,
then `int(s, 16)`. -/
def is_numberStr (s : String) : Bool :=
  if s = "" then false
  else (pyIntDec? s).isSome || (pyIntHex? s).isSome

/-- `utils.is_number` applied to a value that may be Python `None`
(`if not s: return False`). -/
def is_numberOpt : Option String → Bool
  | none => false
  | some s => is_numberStr s

/-- Addressing mode of an operand (`'simple'` / `'immediate'` / `'indirect'`
in the source). -/
inductive AddrMode where
  | simple
  | immediate
  | indirect
deriving DecidableEq, Repr

/-- `utils.parse_single_operand` (utils.py lines 135-159). -/
def parse_single_operand (operand : String) (indexed : Bool) :
    Option String × AddrMode × Bool :=
  if operand = "" then (none, .simple, indexed)
  else
    -- operand = operand.replace(' ', '')
    let op := String.mk (operand.data.filter (fun c => c ≠ ' '))
    -- trailing ",X" check (only when not already indexed)
    let idx2 := indexed || (!indexed && strEnds (pyUpper op) ",X")
    let op2 := if !indexed && strEnds (pyUpper op) ",X" then
                 String.mk (op.data.dropLast.dropLast) else op
    if strStarts op2 "#" then (some (strDrop op2 1), .immediate, idx2)
    else if strStarts op2 "@" then (some (strDrop op2 1), .indirect, idx2)
    else (some op2, .simple, idx2)

/-- First element of a comma-separated operand list that is nonempty and not
a register name (utils.py lines 123-127). -/
def findNonRegister : List String → Option String
  | [] => none
  | op :: rest =>
    if op ≠ "" && !inREGISTERS (pyUpper op) then some op
    else findNonRegister rest

/-- `utils.parse_operand` (utils.py lines 96-133), including the
multi-operand comma branch. -/
def parse_operand (operand : Option String) : Option String × AddrMode × Bool :=
  match operand with
  | none => (none, .simple, false)
  | some s =>
    if s = "" then (none, .simple, false)
    else
      -- operand_clean = operand.replace(' ', '')
      let clean := s.data.filter (fun c => c ≠ ' ')
      if clean.contains ',' then
        let ops0 := (s.splitOn ",").map strStrip
        match ops0 with
        | [] => (none, .simple, false)  -- unreachable: splitOn is never empty
        | p0 :: _ =>
          let indexed := decide (1 < ops0.length) && (pyUpper (ops0.getLastD "") == "X")
          let ops1 := if indexed then ops0.dropLast else ops0
          -- primary_operand is ops0[0] both before and after the X removal
          match findNonRegister ops1 with
          | some op => parse_single_operand (String.mk (pyStrip op.data)) indexed
          | none => parse_single_operand p0 indexed
      else parse_single_operand s false

/-- `utils.calculate_displacement` result tag (`'pc'` / `'base'` /
`'direct'`). -/
inductive DispMode where
  | pc
  | base
  | direct
deriving DecidableEq, Repr

/-- `utils.calculate_displacement` (utils.py lines 176-190). -/
def calculate_displacement (targetAddr pcAddr : Int) (baseAddr : Option Int) :
    Int × DispMode :=
  let pcDisp := targetAddr - pcAddr
  if -2048 ≤ pcDisp ∧ pcDisp ≤ 2047 then (pcDisp, .pc)
  else
    match baseAddr with
    | some b =>
      let baseDisp := targetAddr - b
      if 0 ≤ baseDisp ∧ baseDisp ≤ 4095 then (baseDisp, .base)
      else (targetAddr, .direct)
    | none => (targetAddr, .direct)

/-- The single-quote character (written by code point to keep the source
free of quote characters outside names). -/
def sq : Char := Char.ofNat 39

/-- The double-quote character. -/
def dq : Char := Char.ofNat 34

/-- `utils.byte_to_object_code` (utils.py lines 199-213). -/
def byte_to_object_code (operand : String) : Except String String :=
  let cq := String.mk ['C', sq]
  let xq := String.mk ['X', sq]
  let q := String.mk [sq]
  if strStarts operand cq && strEnds operand q then
    let text := operand.data.drop 2 |>.dropLast
    .ok (String.join (text.map (fun c => natFormatX c.toNat 2)))
  else if strStarts operand xq && strEnds operand q then
    let hexStr := operand.data.drop 2 |>.dropLast
    let padded := if hexStr.length % 2 = 1 then hexStr ++ ['0'] else hexStr
    .ok (String.mk (padded.map Char.toUpper))
  else .error ("Invalid BYTE operand: " ++ operand)

/-- `utils.calculate_byte_length` (utils.py lines 215-223). -/
def calculate_byte_length (operand : String) : Except String Int :=
  let cq := String.mk ['C', sq]
  let xq := String.mk ['X', sq]
  let q := String.mk [sq]
  if strStarts operand cq && strEnds operand q then
    .ok ((operand.data.drop 2 |>.dropLast).length : Int)
  else if strStarts operand xq && strEnds operand q then
    .ok ((((operand.data.drop 2 |>.dropLast).length + 1) / 2 : Nat) : Int)
  else .error ("Invalid BYTE operand: " ++ operand)

/-! ### utils.py / pass1.py: line parsing -/

/-- Quote-aware tokenizer of `utils.parse_line` (utils.py lines 41-66):
whitespace splits tokens except inside a matched single- or double-quoted
substring. -/
def tokenizeQuoted : List Char → List Char → Bool → Option Char → List String
  | [], cur, _, _ => if cur = [] then [] else [String.mk cur.reverse]
  | c :: rest, cur, inQ, qc =>
    if (c = sq || c = dq) && !inQ then tokenizeQuoted rest (c :: cur) true (some c)
    else if some c = qc && inQ then tokenizeQuoted rest (c :: cur) false none
    else if pyIsSpace c && !inQ then
      if cur = [] then tokenizeQuoted rest cur inQ qc
      else String.mk cur.reverse :: tokenizeQuoted rest [] inQ qc
    else tokenizeQuoted rest (c :: cur) inQ qc

/-- Join tokens with single spaces, `None` when the list is empty
(`' '.join(parts[i:]) if len(parts) > i else None`). -/
def joinOpt (parts : List String) : Option String :=
  if parts = [] then none else some (String.intercalate " " parts)

/-- Is this (uppercased) token an opcode, a directive, or `+` followed by an
opcode?  (The test used by both line parsers.) -/
def isOpcodeToken (t : String) : Bool :=
  inOPCODES t || inDIRECTIVES t || (strStarts t "+" && inOPCODES (strDrop t 1))

/-- `utils.parse_line` (utils.py lines 34-94): label / opcode / operand. -/
def parse_line (line : String) : Option String × Option String × Option String :=
  let l := strStrip line
  if l = "" then (none, none, none)
  else
    let parts := tokenizeQuoted l.data [] false none
    match parts with
    | [] => (none, none, none)
    | p0 :: rest =>
      let fpu := pyUpper p0
      if isOpcodeToken fpu then (none, some fpu, joinOpt rest)
      else
        match rest with
        | [] => (some p0, none, none)
        | p1 :: rest2 => (some p0, some (pyUpper p1), joinOpt rest2)

/-- `pass1.enhanced_parse_line` (pass1.py lines 10-84). -/
def enhanced_parse_line (line : String) : Option String × Option String × Option String :=
  let l1 := strStrip line
  if l1 = "" then (none, none, none)
  else if strStarts l1 (String.mk [';']) then (none, none, none)
  else
    let l2 := if l1.data.contains ';' then
                String.mk (pyStrip (l1.data.takeWhile (fun c => c ≠ ';'))) else l1
    if l2 = "" then (none, none, none)
    else
      let parts := wsSplit l2.data
      -- starts_with_whitespace: computed on the already-stripped line, so
      -- always false; embedded as in the source
      let sww := decide (l2.data ≠ []) && pyIsSpace (l2.data.headD 'A')
      if sww = false ∧ 2 ≤ parts.length then
        match parts with
        | p0 :: p1 :: rest =>
          let fw := pyUpper p0
          let sw := pyUpper p1
          if isOpcodeToken sw then (some p0, some sw, joinOpt rest)
          else if isOpcodeToken fw then (none, some fw, joinOpt (p1 :: rest))
          else (some p0, some sw, joinOpt rest)
        | _ => (none, none, none)
      else
        match parts with
        | [] => (none, none, none)
        | p0 :: rest =>
          let fw := pyUpper p0
          if isOpcodeToken fw then (none, some fw, joinOpt rest)
          else (some p0, none, none)

/-! ### pass1.py -/

/-- Listing line emitted by Pass 1: `f"{format_hex(locctr, 4)} {line}"`. -/
def p1OutLine (loc : Int) (line : String) : String :=
  format_hex loc 4 ++ " " ++ line

/-- Result of Pass 1 (pass1.py line 231): symbol table, start address,
program length, program name, listing. -/
structure Pass1Result where
  symtab : List (String × Int)
  startAddr : Int
  programLength : Int
  programName : Option String
  output : List String
deriving DecidableEq, Repr

/-- Effect of one Pass-1 line on the loop state (pass1.py lines 95-227):
either `END` stops the pass, or the state advances. -/
inductive P1Act where
  | stop (outLine : String) (symtab : List (String × Int))
  | step (outLines : List String) (symtab : List (String × Int)) (loc : Int)
      (startAddr : Int) (progName : Option String)
deriving DecidableEq, Repr

/-- Instruction length chosen by Pass 1 for a known mnemonic
(pass1.py lines 188-198 and 206-219): `+` means format 4 (4 bytes),
otherwise the table's format number decides. -/
def p1NormalSize (opcode baseOp : String) : Int :=
  match opcodeLookup baseOp with
  | some (_, fmt) =>
    if strStarts opcode "+" then 4
    else if fmt = 1 then 1
    else if fmt = 2 then 2
    else 3
  | none => 0  -- unreachable: callers guard with inOPCODES

/-- Pass-1 size dispatch for an instruction line (pass1.py lines 176-219),
including the conditional-mnemonic (`C` prefix) special case.  Errors are
the uncaught `ValueError`s of the source. -/
def p1InstrSize (opcode : String) : Except String Int :=
  let baseOp := if strStarts opcode "+" then strDrop opcode 1 else opcode
  if strStarts baseOp "C" ∧ 1 < baseOp.data.length then
    if inOPCODES (strDrop baseOp 1) then .ok 3
    else if inOPCODES baseOp then .ok (p1NormalSize opcode baseOp)
    else .error ("Invalid conditional opcode: " ++ baseOp)
  else if inOPCODES baseOp then .ok (p1NormalSize opcode baseOp)
  else .error ("Invalid opcode: " ++ baseOp)

/-- Pass-1 `LOCCTR` advance for a directive other than `START`/`END`
(pass1.py lines 151-173).  `int(operand)` is Python's decimal parse: it
raises (uncaught) on an operand that `is_number` admitted only as hex. -/
def p1DirectiveSize (opcode : String) (operand : Option String) : Except String Int :=
  if opcode = "WORD" then .ok 3
  else if opcode = "RESW" then
    match operand with
    | some o =>
      if o ≠ "" ∧ is_numberStr o then
        match pyIntDec? o with
        | some v => .ok (v * 3)
        | none => .error "ValueError: invalid literal for int() with base 10"
      else .error ("Invalid RESW operand: " ++ o)
    | none => .error "Invalid RESW operand: None"
  else if opcode = "RESB" then
    match operand with
    | some o =>
      if o ≠ "" ∧ is_numberStr o then
        match pyIntDec? o with
        | some v => .ok v
        | none => .error "ValueError: invalid literal for int() with base 10"
      else .error ("Invalid RESB operand: " ++ o)
    | none => .error "Invalid RESB operand: None"
  else if opcode = "BYTE" then
    match operand with
    | some o =>
      match calculate_byte_length o with
      | .ok n => .ok n
      | .error _ => .error ("Invalid BYTE operand: " ++ o)
    | none => .error "Invalid BYTE operand: None"
  else .ok 0  -- BASE, NOBASE: no effect on locctr

/-- `START` operand parsing in Pass 1 (pass1.py lines 118-129): the guard
`is_number(operand)` admits hex strings, but the branch then calls the
decimal `int(operand)`, whose `ValueError` is uncaught; the hex fallback
in the `else` branch is unreachable for any operand `is_number` accepts. -/
def p1StartValue (locctr startAddr : Int) (operand : Option String) :
    Except String (Int × Int) :=
  match operand with
  | some o =>
    if o ≠ "" then
      if is_numberStr o then
        match pyIntDec? o with
        | some v => .ok (v, v)
        | none => .error "ValueError: invalid literal for int() with base 10"
      else
        match pyIntHex? o with
        | some v => .ok (v, v)
        | none => .error ("Invalid START operand: " ++ o)
    else .ok (locctr, startAddr)
  | none => .ok (locctr, startAddr)

/-- One iteration of the Pass-1 loop (pass1.py lines 95-227). -/
def pass1LineAct (symtab : List (String × Int)) (locctr startAddr : Int)
    (progName : Option String) (line : String) : Except String P1Act :=
  match enhanced_parse_line line with
  | (labelQ, opcodeQ, operandQ) =>
    match opcodeQ with
    | none =>
      -- lines 112-115: no opcode; list the line if it is nonblank
      .ok (.step (if strStrip line = "" then [] else [p1OutLine locctr line])
            symtab locctr startAddr progName)
    | some opcode =>
      if opcode = "START" then
        match p1StartValue locctr startAddr operandQ with
        | .error e => .error e
        | .ok (newLoc, newStart) =>
          let pn := match labelQ with
                    | some l => if l = "" then progName else some l
                    | none => progName
          .ok (.step [p1OutLine newLoc line] symtab newLoc newStart pn)
      else
        let current := locctr
        -- lines 141-144: enter the label before dispatching on the opcode
        match (match labelQ with
               | some l =>
                 if l = "" then Except.ok symtab
                 else if symtab.any (fun e => e.1 == l) then
                   Except.error ("Duplicate label: " ++ l)
                 else Except.ok (symtab ++ [(l, current)])
               | none => Except.ok symtab) with
        | .error e => .error e
        | .ok symtab1 =>
          if inDIRECTIVES opcode then
            if opcode = "END" then .ok (.stop (p1OutLine current line) symtab1)
            else
              match p1DirectiveSize opcode operandQ with
              | .error e => .error e
              | .ok d =>
                .ok (.step [p1OutLine current line] symtab1 (current + d)
                      startAddr progName)
          else if inOPCODES opcode || strStarts opcode "+" then
            match p1InstrSize opcode with
            | .error e => .error e
            | .ok d =>
              .ok (.step [p1OutLine current line] symtab1 (current + d)
                    startAddr progName)
          else
            -- lines 220-225: unknown mnemonic: warn, list the line, continue
            .ok (.step [p1OutLine current line] symtab1 current startAddr progName)

/-- The Pass-1 loop (pass1.py lines 86-231). -/
def pass1Aux : List String → List (String × Int) → Int → Int → Option String →
    List String → Except String Pass1Result
  | [], symtab, locctr, sa, pn, out =>
    .ok ⟨symtab, sa, locctr - sa, pn, out⟩
  | line :: rest, symtab, locctr, sa, pn, out =>
    match pass1LineAct symtab locctr sa pn line with
    | .error e => .error e
    | .ok (.stop outLine st2) => .ok ⟨st2, sa, locctr - sa, pn, out ++ [outLine]⟩
    | .ok (.step outs st2 loc2 sa2 pn2) =>
      pass1Aux rest st2 loc2 sa2 pn2 (out ++ outs)

/-- `pass1.pass1`: run Pass 1 from the initial state. -/
def pass1Run (lines : List String) : Except String Pass1Result :=
  pass1Aux lines [] 0 0 none []

/-! ### pass2.py: per-format encoders -/

/-- Python truthiness of the operand argument (`if not operand:`). -/
def operandEmpty : Option String → Bool
  | none => true
  | some s => s = ""

/-- `pass2.generate_format2_code` (pass2.py lines 175-203).  The raises are
the `Invalid register` `ValueError`s. -/
def generate_format2_code (opcodeHex : String) (operand : Option String) :
    Except String String :=
  if operandEmpty operand then .ok (opcodeHex ++ "00")
  else
    let op := operand.getD ""
    if op.data.contains ',' then
      let regs := (op.splitOn ",").map (fun r => pyUpper (strStrip r))
      let reg1 := regs.headD ""
      let reg2 := regs.getD 1 ""
      if reg1 ≠ "" ∧ ¬inREGISTERS reg1 then .error ("Invalid register: " ++ reg1)
      else if reg2 ≠ "" ∧ ¬inREGISTERS reg2 then .error ("Invalid register: " ++ reg2)
      else
        let c1 := if reg1 ≠ "" then (registerLookup reg1).getD 0 else 0
        let c2 := if reg2 ≠ "" then (registerLookup reg2).getD 0 else 0
        .ok (opcodeHex ++ natFormatX c1 1 ++ natFormatX c2 1)
    else
      let reg := pyUpper (strStrip op)
      if ¬inREGISTERS reg then .error ("Invalid register: " ++ reg)
      else .ok (opcodeHex ++ natFormatX ((registerLookup reg).getD 0) 1 ++ "0")

/-- The `n`/`i` flag pair for an addressing mode (pass2.py lines 233-247:
`n = i = 1`, then immediate sets `n = 0`, indirect sets `i = 0`). -/
def niFlags : AddrMode → Nat × Nat
  | .immediate => (0, 1)
  | .indirect => (1, 0)
  | .simple => (1, 1)

/-- `pass2.generate_format3_code` (pass2.py lines 205-279).

The `try` around `parse_operand` (lines 211-231) is dead in the embedding:
`parse_operand` is total, so the multi-operand salvage `except` branch can
never run.  The reachable raise is Python's decimal `int(value)` at
line 251 when `is_number` admitted `value` only as hex. -/
def generate_format3_code (opcodeHex : String) (operand : Option String)
    (symtab : List (String × Int)) (currentAddr : Int) (baseAddr : Option Int)
    (nextAddr : Int) : Except String String :=
  if operandEmpty operand then .ok (opcodeHex ++ "0000")
  else
    match parse_operand operand with
    | (valueQ, mode, indexed) =>
      let ni := niFlags mode
      let x := indexed
      -- lines 249-264: target address and b/p flags
      let dispE : Except String (Int × Bool × Bool) :=
        if is_numberOpt valueQ then
          match pyIntDec? (valueQ.getD "") with
          | some t => .ok (t, false, false)
          | none => .error "ValueError: invalid literal for int() with base 10"
        else
          match valueQ with
          | some s =>
            match lookupSym symtab s with
            | some ta =>
              match calculate_displacement ta nextAddr baseAddr with
              | (d, .pc) => .ok (d, false, true)
              | (d, .base) => .ok (d, true, false)
              | (d, .direct) => .ok (d, false, false)
            | none => .ok (0, false, false)  -- warning: undefined symbol, using 0
          | none => .ok (0, false, false)
      match dispE with
      | .error e => .error e
      | .ok (d0, b, p) =>
        -- lines 266-270: mask to 12 bits
        let disp : Int := if d0 < 0 then d0.emod 4096
                          else if 4095 < d0 then d0.emod 4096 else d0
        -- lines 272-279: assemble the three bytes
        match pyIntHex? opcodeHex with
        | none => .error "ValueError: invalid opcode hex"
        | some oi =>
          let flags := (ni.1 <<< 1) ||| ni.2
          let owf := oi.toNat ||| flags
          let xbpe := (if x then 8 else 0) ||| (if b then 4 else 0) |||
                      (if p then 2 else 0)
          .ok (natFormatX owf 2 ++ natFormatX xbpe 1 ++ natFormatX disp.toNat 3)

/-- `pass2.generate_format4_code` (pass2.py lines 281-324).  The error value
carries the modification-record list as it stood when the exception was
raised (the Python list is mutated in place, so an append that happened
before a later raise survives the `except` in the caller). -/
def generate_format4_code (opcodeHex : String) (operand : Option String)
    (symtab : List (String × Int)) (currentAddr : Int) (modRecs : List String) :
    Except (String × List String) (String × List String) :=
  if operandEmpty operand then .ok (opcodeHex ++ "000000", modRecs)
  else
    match parse_operand operand with
    | (valueQ, mode, indexed) =>
      let ni := niFlags mode
      let x := indexed
      -- lines 304-315: target address (and modification record for symbols)
      let taE : Except (String × List String) (Int × List String) :=
        if is_numberOpt valueQ then
          match pyIntDec? (valueQ.getD "") with
          | some t => .ok (t, modRecs)
          | none => .error ("ValueError: invalid literal for int() with base 10",
                            modRecs)
        else
          match valueQ with
          | some s =>
            match lookupSym symtab s with
            | some ta =>
              if mode = .simple ∨ mode = .indirect then
                .ok (ta, modRecs ++ ["M^" ++ format_hex (currentAddr + 1) 6 ++ "^05"])
              else .ok (ta, modRecs)
            | none => .ok (0, modRecs)  -- warning: undefined symbol, using 0
          | none => .ok (0, modRecs)
      match taE with
      | .error e => .error e
      | .ok (ta, mods2) =>
        match pyIntHex? opcodeHex with
        | none => .error ("ValueError: invalid opcode hex", mods2)
        | some oi =>
          let flags := (ni.1 <<< 1) ||| ni.2
          let owf := oi.toNat ||| flags
          let xbpe := (if x then 8 else 0) ||| 1  -- b = p = 0, e = 1
          .ok (natFormatX owf 2 ++ natFormatX xbpe 1 ++ pyFormatXInt ta 5, mods2)

/-! ### pass2.py: text-record accumulation -/

/-- A flushed Text record: its start address and its object codes, each
remembered with the address it was emitted at.  The source keeps only the
code strings (pass2.py line 17); the emission addresses are carried here so
that contiguity can be stated, and the rendered record (below) ignores
them. -/
structure TextRec where
  start : Int
  items : List (Int × String)
deriving DecidableEq, Repr

/-- The open record of the accumulator (pass2.py lines 17-19:
`current_text_record`, `current_text_start`, `current_text_length`). -/
structure OpenRec where
  start : Int
  items : List (Int × String)
  len : Nat
deriving DecidableEq, Repr

/-- Record-accumulator state: flushed records plus the open one. -/
structure RecSt where
  recs : List TextRec
  cur : Option OpenRec
deriving DecidableEq, Repr

/-- `pass2.create_text_record` (pass2.py lines 326-330). -/
def createTextRecord (startAddr : Int) (objectCodes : List String) : String :=
  let combined := String.join objectCodes
  "T^" ++ format_hex startAddr 6 ++ "^" ++
    format_hex ((combined.data.length / 2 : Nat) : Int) 2 ++ "^" ++ combined

/-- Rendered form of a flushed record (what the source appends to
`text_records`). -/
def renderTextRec (r : TextRec) : String :=
  createTextRecord r.start (r.items.map (fun it => it.2))

/-- Flush the open record (pass2.py lines 154-156, 64-69, 75-80, 169-171). -/
def flushRec (st : RecSt) : RecSt :=
  match st.cur with
  | none => st
  | some o => ⟨st.recs ++ [⟨o.start, o.items⟩], none⟩

/-- Add an emitted byte sequence to the accumulator (pass2.py lines
146-165): start a new record when none is open, when the 30-byte cap would
be exceeded, or when the address is not contiguous; otherwise append. -/
def addToRecord (st : RecSt) (addr : Int) (code : String) : RecSt :=
  let bytes := code.data.length / 2
  match st.cur with
  | none => ⟨st.recs, some ⟨addr, [(addr, code)], bytes⟩⟩
  | some o =>
    if 30 < o.len + bytes ∨ addr ≠ o.start + (o.len : Int) then
      ⟨st.recs ++ [⟨o.start, o.items⟩], some ⟨addr, [(addr, code)], bytes⟩⟩
    else ⟨st.recs, some ⟨o.start, o.items ++ [(addr, code)], o.len + bytes⟩⟩

/-! ### pass2.py: the main loop -/

/-- The `try` block of pass2.py lines 113-131: dispatch to the per-format
generator.  Returns the object code, the `LOCCTR` advance, and the
modification-record list; an error is a raised exception carrying the
(list-mutation-surviving) modification records. -/
def encodeTry (plus : Bool) (opcodeHex : String) (fmtNum : Nat)
    (operand : Option String) (symtab : List (String × Int)) (currentLocctr : Int)
    (baseAddr : Option Int) (locctr : Int) (mods : List String) :
    Except (String × List String) (String × Int × List String) :=
  if plus then
    match generate_format4_code opcodeHex operand symtab currentLocctr mods with
    | .ok (c, m) => .ok (c, 4, m)
    | .error e => .error e
  else if fmtNum = 1 then .ok (opcodeHex, 1, mods)
  else if fmtNum = 2 then
    match generate_format2_code opcodeHex operand with
    | .ok c => .ok (c, 2, mods)
    | .error e => .error (e, mods)
  else
    -- note: the source passes `locctr` as `next_addr` BEFORE advancing it,
    -- so at this call site it still equals `current_locctr`
    match generate_format3_code opcodeHex operand symtab currentLocctr baseAddr
        locctr with
    | .ok c => .ok (c, 3, mods)
    | .error e => .error (e, mods)

/-- The `except` block of pass2.py lines 132-143: fall back to the opcode
byte padded with zeros, sized by the table's format number (not by the
actual instruction length: a failed format-4 instruction falls into the
format-3 arm and advances `LOCCTR` by 3). -/
def encodeFallback (opcodeHex : String) (fmtNum : Nat) (mods : List String) :
    String × Int × List String :=
  if fmtNum = 1 then (opcodeHex, 1, mods)
  else if fmtNum = 2 then (opcodeHex ++ "00", 2, mods)
  else (opcodeHex ++ "0000", 3, mods)

/-- pass2.py lines 113-143: the `try`/`except` around the per-format
encoders — a per-format failure never propagates. -/
def encodeWithFallback (plus : Bool) (opcodeHex : String) (fmtNum : Nat)
    (operand : Option String) (symtab : List (String × Int)) (currentLocctr : Int)
    (baseAddr : Option Int) (locctr : Int) (mods : List String) :
    String × Int × List String :=
  match encodeTry plus opcodeHex fmtNum operand symtab currentLocctr baseAddr
      locctr mods with
  | .ok r => r
  | .error (_, m) => encodeFallback opcodeHex fmtNum m

/-- pass2.py lines 94-111: strip the `+`, rewrite a conditional `C`-prefixed
mnemonic to its unconditional form when that one is known and the original
is not, then look the result up. -/
def resolveOpcode (opcode : String) : Option (String × Nat) :=
  let b0 := if strStarts opcode "+" then strDrop opcode 1 else opcode
  let b := if strStarts b0 "C" ∧ 1 < b0.data.length ∧
              inOPCODES (strDrop b0 1) ∧ ¬inOPCODES b0
           then strDrop b0 1 else b0
  opcodeLookup b

/-- Python `f"{s:<30}"`. -/
def padTo30 (s : String) : String :=
  s ++ String.mk (List.replicate (30 - s.data.length) ' ')

/-- Pass-2 listing line with object code (pass2.py line 167). -/
def p2OutLine (loc : Int) (line code : String) : String :=
  format_hex loc 4 ++ " " ++ padTo30 line ++ " " ++ code

/-- Pass-2 listing line without object code (pass2.py lines 35, 40, 51). -/
def p2OutLineNC (loc : Int) (line : String) : String :=
  format_hex loc 4 ++ " " ++ padTo30 line

/-- Result of Pass 2 (pass2.py line 173). -/
structure Pass2Result where
  output : List String
  textRecords : List TextRec
  modRecords : List String
deriving DecidableEq, Repr

/-- Effect of one Pass-2 line on the loop state: `END` stops the pass;
otherwise the listing lines, emitted object code, new `LOCCTR`, new `BASE`,
new modification records, and whether the open Text record is flushed
(`RESW`/`RESB`). -/
inductive P2Act where
  | stop (outLine : String)
  | step (outLines : List String) (code : String) (newLoc : Int)
      (newBase : Option Int) (newMods : List String) (doFlush : Bool)
deriving DecidableEq, Repr

/-- One iteration of the Pass-2 loop (pass2.py lines 22-167), everything
except the record accumulation (lines 146-165), which the loop below applies
to the returned action. -/
def pass2LineAct (symtab : List (String × Int)) (locctr : Int)
    (baseAddr : Option Int) (mods : List String) (line : String) :
    Except String P2Act :=
  match parse_line line with
  | (_, opcodeQ, operandQ) =>
    match opcodeQ with
    | none =>
      .ok (.step (if strStrip line = "" then [] else [p2OutLineNC locctr line])
            "" locctr baseAddr mods false)
    | some opcode =>
      if opcode = "START" then
        -- lines 39-43: `if operand and is_number(operand): locctr = int(operand)`
        match (match operandQ with
               | some o =>
                 if o ≠ "" ∧ is_numberStr o then
                   match pyIntDec? o with
                   | some v => Except.ok v
                   | none =>
                     Except.error "ValueError: invalid literal for int() with base 10"
                 else Except.ok locctr
               | none => Except.ok locctr) with
        | .error e => .error e
        | .ok v => .ok (.step [p2OutLineNC locctr line] "" v baseAddr mods false)
      else
        let current := locctr
        if inDIRECTIVES opcode then
          if opcode = "END" then .ok (.stop (p2OutLineNC current line))
          else if opcode = "WORD" then
            match operandQ with
            | some o =>
              if o ≠ "" ∧ is_numberStr o then
                match pyIntDec? o with
                | some v =>
                  let c := format_hex v 6
                  .ok (.step [p2OutLine current line c] c (current + 3) baseAddr
                        mods false)
                | none =>
                  .error "ValueError: invalid literal for int() with base 10"
              else .error ("Invalid WORD operand: " ++ o)
            | none => .error "Invalid WORD operand: None"
          else if opcode = "RESW" then
            match operandQ with
            | some o =>
              if o ≠ "" ∧ is_numberStr o then
                match pyIntDec? o with
                | some v =>
                  .ok (.step [p2OutLine current line ""] "" (current + v * 3)
                        baseAddr mods true)
                | none =>
                  .error "ValueError: invalid literal for int() with base 10"
              else .error ("Invalid RESW operand: " ++ o)
            | none => .error "Invalid RESW operand: None"
          else if opcode = "RESB" then
            match operandQ with
            | some o =>
              if o ≠ "" ∧ is_numberStr o then
                match pyIntDec? o with
                | some v =>
                  .ok (.step [p2OutLine current line ""] "" (current + v)
                        baseAddr mods true)
                | none =>
                  .error "ValueError: invalid literal for int() with base 10"
              else .error ("Invalid RESB operand: " ++ o)
            | none => .error "Invalid RESB operand: None"
          else if opcode = "BYTE" then
            match operandQ with
            | some o =>
              match byte_to_object_code o with
              | .ok c =>
                .ok (.step [p2OutLine current line c] c
                      (current + (c.data.length / 2 : Nat)) baseAddr mods false)
              | .error e => .error e
            | none => .error "AttributeError: NoneType has no attribute startswith"
          else if opcode = "BASE" then
            -- lines 84-90
            match (match operandQ with
                   | some o =>
                     match lookupSym symtab o with
                     | some v => Except.ok (some v)
                     | none =>
                       if is_numberStr o then
                         match pyIntDec? o with
                         | some v => Except.ok (some v)
                         | none =>
                           Except.error
                             "ValueError: invalid literal for int() with base 10"
                       else Except.error ("Invalid BASE operand: " ++ o)
                   | none => Except.error "Invalid BASE operand: None") with
            | .error e => .error e
            | .ok nb =>
              .ok (.step [p2OutLine current line ""] "" current nb mods false)
          else
            -- NOBASE reaches here: the directive chain (lines 49-90) has no
            -- case for it, so nothing happens — BASE is NOT cleared
            .ok (.step [p2OutLine current line ""] "" current baseAddr mods false)
        else if inOPCODES opcode || strStarts opcode "+" then
          match resolveOpcode opcode with
          | none =>
            -- lines 104-107: unknown base mnemonic after '+': emit a NOP
            .ok (.step [p2OutLine current line "000000"] "000000" (current + 3)
                  baseAddr mods false)
          | some (hex, fmt) =>
            match encodeWithFallback (strStarts opcode "+") hex fmt operandQ
                symtab current baseAddr current mods with
            | (code, delta, mods2) =>
              .ok (.step [p2OutLine current line code] code (current + delta)
                    baseAddr mods2 false)
        else
          -- a mnemonic that is neither a directive, in the table, nor
          -- '+'-prefixed falls through both branches: no object code
          .ok (.step [p2OutLine current line ""] "" current baseAddr mods false)

/-- The Pass-2 loop (pass2.py lines 11-173): thread the record accumulator
through the per-line actions. -/
def pass2Aux : List String → List (String × Int) → Int → Option Int → RecSt →
    List String → List String → Except String Pass2Result
  | [], _, _, _, st, mods, out => .ok ⟨out, (flushRec st).recs, mods⟩
  | line :: rest, symtab, locctr, baseAddr, st, mods, out =>
    match pass2LineAct symtab locctr baseAddr mods line with
    | .error e => .error e
    | .ok (.stop outLine) => .ok ⟨out ++ [outLine], (flushRec st).recs, mods⟩
    | .ok (.step outs code newLoc newBase newMods doFlush) =>
      let st1 := if doFlush then flushRec st else st
      let st2 := if code = "" then st1 else addToRecord st1 locctr code
      pass2Aux rest symtab newLoc newBase st2 newMods (out ++ outs)

/-- `pass2.pass2`: run Pass 2 (`locctr = start_addr`, `base_addr = None`). -/
def pass2Run (lines : List String) (symtab : List (String × Int))
    (startAddr : Int) : Except String Pass2Result :=
  pass2Aux lines symtab startAddr none ⟨[], none⟩ [] []

/-! ### utils.py: per-line preprocessing (`create_intermediate_file`) -/

/-- `re.sub(r'^\d+\s+', '', line)` (utils.py line 17): remove a maximal
leading run of decimal digits followed by a maximal run of whitespace,
when both are nonempty. -/
def stripLineNum (l : List Char) : List Char :=
  let ds := l.takeWhile Char.isDigit
  let rest := l.drop ds.length
  let ws := rest.takeWhile pyIsSpace
  if ds ≠ [] ∧ ws ≠ [] then rest.drop ws.length else l

/-- Does the line start with digits followed by whitespace (the pattern
`stripLineNum` removes)? -/
def hasLineNumPfx (l : List Char) : Bool :=
  decide (l.takeWhile Char.isDigit ≠ []) &&
    decide ((l.drop (l.takeWhile Char.isDigit).length).takeWhile pyIsSpace ≠ [])

/-- `re.sub(r';.*$', '', line)` (utils.py line 20): truncate at the first
`';'`. -/
def stripComment (l : List Char) : List Char := l.takeWhile (fun c => c ≠ ';')

/-- The per-line transform of `utils.create_intermediate_file`
(utils.py lines 15-20): `strip`, remove the line-number run, truncate at
`';'`, `strip` again. -/
def preprocessLine (s : String) : String :=
  String.mk (pyStrip (stripComment (stripLineNum (pyStrip s.data))))

/-! ### Statement ingredients -/

/-- Is this `Except` a success? -/
def exceptOk {ε α : Type} : Except ε α → Bool
  | .ok _ => true
  | .error _ => false

/-- Total number of object-code bytes in a record's items (each code is a
hex string; one byte per two hex digits). -/
def sumBytes : List (Int × String) → Nat
  | [] => 0
  | it :: rest => it.2.data.length / 2 + sumBytes rest

/-- The items of a record occupy contiguous addresses starting at `a`:
each code sits immediately after the bytes of the previous ones. -/
def contigB : Int → List (Int × String) → Bool
  | _, [] => true
  | a, it :: rest =>
    (it.1 == a) && contigB (a + ((it.2.data.length / 2 : Nat) : Int)) rest

/-- Invariant of a flushed Text record: contiguous from its header address,
nonempty, and within the 30-byte cap unless it is a single oversized
emission. -/
def recInvP (r : TextRec) : Prop :=
  contigB r.start r.items = true ∧ (sumBytes r.items ≤ 30 ∨ r.items.length = 1) ∧
    r.items ≠ []

/-- Invariant of the open record: additionally the tracked
`current_text_length` equals the byte count of the buffered codes. -/
def openInv (o : OpenRec) : Prop :=
  contigB o.start o.items = true ∧ o.len = sumBytes o.items ∧
    (o.len ≤ 30 ∨ o.items.length = 1) ∧ o.items ≠ []

/-- Invariant of the whole accumulator state. -/
def stInv (st : RecSt) : Prop :=
  (∀ r ∈ st.recs, recInvP r) ∧ ∀ o, st.cur = some o → openInv o

/-- Scenario 1 of the spec (minimal program). -/
def sc1Lines : List String := ["COPY START 1000", "LDA #5", "RSUB", "END"]

/-- Scenario 2 of the spec (PC-relative displacement). -/
def sc2Lines : List String := ["START 0", "LDA  LBL", "LBL   WORD  7", "END"]

/-- A `BYTE` directive with a 31-character constant (a single emission of
more than 30 bytes). -/
def bigByteLine : String :=
  String.mk ("B BYTE C".data ++ [sq] ++ List.replicate 31 'A' ++ [sq])

/-! ### Lemmas about stripping (for the idempotence claim) -/

theorem pyStrip_idem (l : List Char) : pyStrip (pyStrip l) = pyStrip l := by
  unfold pyStrip
  set A := List.dropWhile pyIsSpace l with hA
  have hdw : List.dropWhile pyIsSpace (List.rdropWhile pyIsSpace A) =
      List.rdropWhile pyIsSpace A := by
    rw [List.dropWhile_eq_self_iff]
    intro hl
    have hpre := List.rdropWhile_prefix pyIsSpace A
    have hlen : 0 < A.length := lt_of_lt_of_le hl hpre.length_le
    have hget := hpre.getElem (n := 0) hl
    have hnot := List.dropWhile_get_zero_not pyIsSpace l (hA ▸ hlen)
    simpa [List.get_eq_getElem, ← hA, hget] using hnot
  rw [hdw, List.rdropWhile_idempotent]

theorem mem_pyStrip {c : Char} {l : List Char} (h : c ∈ pyStrip l) : c ∈ l := by
  unfold pyStrip at h
  exact (List.dropWhile_suffix pyIsSpace).subset
    ((List.rdropWhile_prefix pyIsSpace _).subset h)

theorem stripComment_no_semi {l : List Char} : ';' ∉ stripComment l := by
  intro h
  have := List.mem_takeWhile_imp h
  simp at this

theorem stripComment_of_no_semi {l : List Char} (h : ';' ∉ l) :
    stripComment l = l := by
  unfold stripComment
  rw [List.takeWhile_eq_self_iff]
  intro x hx
  simp only [decide_eq_true_eq]
  rintro rfl
  exact h hx

/-! ### Record-accumulator invariant lemmas -/

theorem sumBytes_append (items : List (Int × String)) (it : Int × String) :
    sumBytes (items ++ [it]) = sumBytes items + it.2.data.length / 2 := by
  induction items with
  | nil => simp [sumBytes]
  | cons x rest ih => simp [sumBytes, ih]; ring

theorem contigB_append (c : String) : ∀ (a : Int) (items : List (Int × String)),
    contigB a items = true →
    contigB a (items ++ [(a + (sumBytes items : Int), c)]) = true := by
  intro a items
  induction items generalizing a with
  | nil => intro _; simp [contigB, sumBytes]
  | cons it rest ih =>
    intro h
    simp only [contigB, Bool.and_eq_true, beq_iff_eq] at h
    obtain ⟨h1, h2⟩ := h
    have key : a + (sumBytes (it :: rest) : Int) =
        a + ((it.2.data.length / 2 : Nat) : Int) + (sumBytes rest : Int) := by
      simp only [sumBytes]
      push_cast
      ring
    simp only [List.cons_append, contigB, Bool.and_eq_true, beq_iff_eq]
    refine ⟨h1, ?_⟩
    rw [key]
    exact ih _ h2

theorem recInvP_of_openInv (o : OpenRec) (h : openInv o) :
    recInvP ⟨o.start, o.items⟩ := by
  obtain ⟨h1, h2, h3, h4⟩ := h
  exact ⟨h1, by rw [← h2]; exact h3, h4⟩

theorem stInv_flush (st : RecSt) (h : stInv st) : stInv (flushRec st) := by
  obtain ⟨recs, cur⟩ := st
  obtain ⟨hrecs, hopen⟩ := h
  cases cur with
  | none => exact ⟨hrecs, hopen⟩
  | some o =>
    refine ⟨?_, by intro o2 ho2; simp [flushRec] at ho2⟩
    intro r hr
    simp only [flushRec] at hr
    rcases List.mem_append.1 hr with hl | hr1
    · exact hrecs r hl
    · rw [List.mem_singleton.1 hr1]
      exact recInvP_of_openInv o (hopen o rfl)

theorem stInv_add (st : RecSt) (addr : Int) (code : String) (h : stInv st) :
    stInv (addToRecord st addr code) := by
  obtain ⟨recs, cur⟩ := st
  obtain ⟨hrecs, hopen⟩ := h
  cases cur with
  | none =>
    refine ⟨hrecs, ?_⟩
    intro o ho
    simp only [addToRecord, Option.some.injEq] at ho
    subst ho
    exact ⟨by simp [contigB], by simp [sumBytes], Or.inr (by simp), by simp⟩
  | some o =>
    obtain ⟨ho1, ho2, ho3, ho4⟩ := hopen o rfl
    simp only [addToRecord]
    by_cases hcond : 30 < o.len + code.data.length / 2 ∨
        addr ≠ o.start + (o.len : Int)
    · rw [if_pos hcond]
      constructor
      · intro r hr
        rcases List.mem_append.1 hr with hl | hr1
        · exact hrecs r hl
        · rw [List.mem_singleton.1 hr1]
          exact recInvP_of_openInv o ⟨ho1, ho2, ho3, ho4⟩
      · intro o2 ho2'
        simp only [Option.some.injEq] at ho2'
        subst ho2'
        exact ⟨by simp [contigB], by simp [sumBytes], Or.inr (by simp), by simp⟩
    · rw [if_neg hcond]
      push_neg at hcond
      obtain ⟨hle, haddr⟩ := hcond
      refine ⟨hrecs, ?_⟩
      intro o2 ho2'
      simp only [Option.some.injEq] at ho2'
      subst ho2'
      have haddr' : addr = o.start + (sumBytes o.items : Int) := by
        rw [haddr, ho2]
      refine ⟨?_, ?_, Or.inl hle, by simp⟩
      · rw [haddr']
        exact contigB_append code o.start o.items ho1
      · rw [sumBytes_append, ho2]

/-- Invariant of the Pass-2 loop: every flushed Text record is contiguous,
nonempty, and obeys the 30-byte cap unless it is a lone oversized emission.
Proved by induction over the input lines; each line touches the accumulator
only through `flushRec` and `addToRecord`. -/
theorem pass2Aux_inv :
    ∀ (lines : List String) (symtab : List (String × Int)) (locctr : Int)
      (baseAddr : Option Int) (st : RecSt) (mods out : List String)
      (res : Pass2Result),
    stInv st → pass2Aux lines symtab locctr baseAddr st mods out = .ok res →
    ∀ r ∈ res.textRecords, recInvP r := by
  intro lines
  induction lines with
  | nil =>
    intro symtab locctr baseAddr st mods out res hinv heq r hr
    simp only [pass2Aux, Except.ok.injEq] at heq
    subst heq
    exact (stInv_flush st hinv).1 r hr
  | cons line rest ih =>
    intro symtab locctr baseAddr st mods out res hinv heq r hr
    rw [pass2Aux] at heq
    cases hact : pass2LineAct symtab locctr baseAddr mods line with
    | error e => rw [hact] at heq; exact absurd heq (by simp)
    | ok act =>
      rw [hact] at heq
      cases act with
      | stop outLine =>
        simp only [Except.ok.injEq] at heq
        subst heq
        exact (stInv_flush st hinv).1 r hr
      | step outs code newLoc newBase newMods doFlush =>
        simp only at heq
        have hinv1 : stInv (if doFlush then flushRec st else st) := by
          by_cases hf : doFlush <;> simp [hf, stInv_flush st hinv, hinv]
        have hinv2 : stInv (if code = "" then (if doFlush then flushRec st else st)
            else addToRecord (if doFlush then flushRec st else st) locctr code) := by
          by_cases hco : code = "" <;> simp [hco, hinv1, stInv_add _ _ _ hinv1]
        exact ih symtab newLoc newBase _ newMods (out ++ outs) res hinv2 heq r hr

/-! ### Claim theorems -/

/-- **C1** (code is wrong): the claim's PC-relative rule uses
`pc_disp = TA − (LOCCTR + 3)`, but Pass 2 passes the not-yet-advanced
`locctr` as `next_addr` (pass2.py lines 129-131 increment only after the
call), so the code computes `pc_disp = TA − LOCCTR`.  On Scenario 2,
`LDA LBL` at address 0 with `LBL` at 3 gets displacement 3, is emitted as
`032003`, and the text record is `T^000000^06^032003000007` — not the
claimed `032000` / `T^000000^06^032000000007`. -/
theorem C1_scenario2_pc_disp :
    (pass1Run sc2Lines).map (fun r => r.symtab) = .ok [("LBL", 3)] ∧
    calculate_displacement 3 0 none = (3, DispMode.pc) ∧
    (pass2Run sc2Lines [("LBL", 3)] 0).map
      (fun r => r.textRecords.map renderTextRec) =
      .ok ["T^000000^06^032003000007"] ∧
    "032003000007" ≠ "032000000007" := by decide

/-- **C2 counterexample**: a line with the unknown mnemonic `FOO` (no `+`)
does not make assembly fail: Pass 1 returns successfully (warning and skip,
pass1.py lines 220-225), and Pass 2 also returns successfully, emitting no
object code for the line. -/
theorem C2_counterexample :
    enhanced_parse_line "LBL FOO 1" = (some "LBL", some "FOO", some "1") ∧
    inOPCODES "FOO" = false ∧ inDIRECTIVES "FOO" = false ∧
    exceptOk (pass1Run ["LBL FOO 1", "END"]) = true ∧
    (pass1Run ["LBL FOO 1", "END"]).map (fun r => r.symtab) = .ok [("LBL", 0)] ∧
    exceptOk (pass2Run ["LBL FOO 1", "END"] [("LBL", 0)] 0) = true ∧
    (pass2Run ["LBL FOO 1", "END"] [("LBL", 0)] 0).map (fun r => r.textRecords) =
      .ok [] := by decide

/-- **C2 amended**: for a line whose mnemonic lacks a `+` prefix and is
neither in the opcode table nor in the directive set, assembly does not
fail: Pass 1 prints a warning, keeps `LOCCTR` unchanged (after entering the
line's label) and continues, and Pass 2 likewise continues, emitting no
object code and leaving all of its state unchanged. -/
theorem C2_unknown_mnemonic_continues :
    (∀ (symtab : List (String × Int)) (locctr sa : Int) (pn : Option String)
       (line l op : String) (opnd : Option String),
       enhanced_parse_line line = (some l, some op, opnd) → l ≠ "" →
       inDIRECTIVES op = false → inOPCODES op = false →
       strStarts op "+" = false →
       symtab.any (fun e => e.1 == l) = false →
       pass1LineAct symtab locctr sa pn line =
         .ok (.step [p1OutLine locctr line] (symtab ++ [(l, locctr)]) locctr sa pn)) ∧
    (∀ (symtab : List (String × Int)) (locctr : Int) (baseAddr : Option Int)
       (mods : List String) (line l op : String) (opnd : Option String),
       parse_line line = (some l, some op, opnd) →
       inDIRECTIVES op = false → inOPCODES op = false →
       strStarts op "+" = false →
       pass2LineAct symtab locctr baseAddr mods line =
         .ok (.step [p2OutLine locctr line ""] "" locctr baseAddr mods false)) := by
  constructor
  · intro symtab locctr sa pn line l op opnd hparse hl hdir hop hplus hfresh
    have hns : op ≠ "START" := by
      intro heq
      rw [heq] at hdir
      exact absurd hdir (by decide)
    unfold pass1LineAct
    rw [hparse]
    simp [hns, hl, hfresh, hdir, hop, hplus]
  · intro symtab locctr baseAddr mods line l op opnd hparse hdir hop hplus
    have hns : op ≠ "START" := by
      intro heq
      rw [heq] at hdir
      exact absurd hdir (by decide)
    unfold pass2LineAct
    rw [hparse]
    simp [hns, hdir, hop, hplus]

/-- Witness for C2: the concrete line `LBL FOO 1` in both passes. -/
theorem C2_unknown_mnemonic_continues_witness :
    pass1LineAct [] 0 0 none "LBL FOO 1" =
      .ok (.step [p1OutLine 0 "LBL FOO 1"] [("LBL", 0)] 0 0 none) ∧
    pass2LineAct [] 0 none [] "LBL FOO 1" =
      .ok (.step [p2OutLine 0 "LBL FOO 1" ""] "" 0 none [] false) :=
  ⟨C2_unknown_mnemonic_continues.1 [] 0 0 none "LBL FOO 1" "LBL" "FOO" (some "1")
      (by decide) (by decide) (by decide) (by decide) (by decide) (by decide),
   C2_unknown_mnemonic_continues.2 [] 0 none [] "LBL FOO 1" "LBL" "FOO" (some "1")
      (by decide) (by decide) (by decide) (by decide)⟩

/-- **C3** (code is wrong): `generate_format4_code` returns early on an
absent operand (pass2.py lines 283-284) without OR-ing the `n`/`i` flags
into the opcode byte or setting the `e` bit, so `+RSUB` emits `4C000000`,
not the claimed `4F100000`. -/
theorem C3_plus_rsub :
    opcodeLookup "RSUB" = some ("4C", 3) ∧
    generate_format4_code "4C" none [] 0 [] = .ok ("4C000000", []) ∧
    (pass2Run ["START 0", "+RSUB", "END"] [] 0).map
      (fun r => r.textRecords.map renderTextRec) = .ok ["T^000000^04^4C000000"] ∧
    "4C000000" ≠ "4F100000" := by decide

/-- **C4** (code is wrong): the Pass-2 directive chain (pass2.py lines
49-90) has no case for `NOBASE`, so the `BASE` value is never cleared.
After `BASE FAR` / `NOBASE`, `LDA FAR` (with `FAR = 5000`, out of
PC-relative range) is still encoded base-relative as `034000`; with the
base actually cleared, the same encoding would be the direct fallback
`030388`. -/
theorem C4_nobase_not_cleared :
    (pass2Run ["START 0", "BASE FAR", "NOBASE", "LDA FAR"] [("FAR", 5000)] 0).map
      (fun r => r.textRecords.map renderTextRec) = .ok ["T^000000^03^034000"] ∧
    generate_format3_code "00" (some "FAR") [("FAR", 5000)] 0 none 0 =
      .ok "030388" ∧
    "034000" ≠ "030388" := by decide

/-- **C5 counterexample**: a Pass-2 reference to the undefined symbol
`MISSING` is not fatal — the run completes and the line is encoded with a
zero displacement (`030000`). -/
theorem C5_counterexample :
    lookupSym [] "MISSING" = none ∧
    exceptOk (pass2Run ["LDA MISSING", "END"] [] 0) = true ∧
    (pass2Run ["LDA MISSING", "END"] [] 0).map
      (fun r => r.textRecords.map renderTextRec) = .ok ["T^000000^03^030000"] := by decide

/-- **C5 amended**: an operand whose payload is a symbol absent from the
symbol table is not fatal: the encoders print a warning and use 0 — the
format-3 displacement field is `000`, the format-4 address field is `00000`
and no modification record is appended — and assembly continues. -/
theorem C5_undefined_symbol_warns :
    ∀ (hex op : String) (symtab : List (String × Int)) (cur : Int)
      (baseAddr : Option Int) (next : Int) (mods : List String) (v : String)
      (mode : AddrMode) (idx : Bool) (hv : Int),
      op ≠ "" →
      parse_operand (some op) = (some v, mode, idx) →
      is_numberStr v = false →
      lookupSym symtab v = none →
      pyIntHex? hex = some hv →
      (∃ pre, generate_format3_code hex (some op) symtab cur baseAddr next =
         .ok (pre ++ "000")) ∧
      (∃ pre, generate_format4_code hex (some op) symtab cur mods =
         .ok (pre ++ "00000", mods)) := by
  intro hex op symtab cur baseAddr next mods v mode idx hv hop hparse hnum hlook hhex
  constructor
  · unfold generate_format3_code
    rw [hparse]
    simp only [operandEmpty, hop, if_false, is_numberOpt, hnum, hlook, hhex,
      Bool.false_eq_true, if_neg]
    simp
    exact ⟨natFormatX (hv.toNat ||| ((niFlags mode).1 <<< 1 ||| (niFlags mode).2)) 2 ++
      natFormatX (if idx = true then 8 else 0) 1,
      by rw [show natFormatX 0 3 = "000" from by decide]⟩
  · unfold generate_format4_code
    rw [hparse]
    simp only [operandEmpty, hop, if_false, is_numberOpt, hnum, hlook, hhex,
      Bool.false_eq_true, if_neg]
    have h00000 : pyFormatXInt 0 5 = "00000" := by decide
    simp only [h00000]
    exact ⟨_, rfl⟩

/-- Witness for C5: `LDA MISSING` / `+LDA MISSING` with an empty symbol
table. -/
theorem C5_undefined_symbol_warns_witness :
    (∃ pre, generate_format3_code "00" (some "MISSING") [] 0 none 0 =
       .ok (pre ++ "000")) ∧
    (∃ pre, generate_format4_code "00" (some "MISSING") [] 0 [] =
       .ok (pre ++ "00000", ([] : List String))) :=
  C5_undefined_symbol_warns "00" "MISSING" [] 0 none 0 [] "MISSING"
    .simple false 0 (by decide) (by decide) (by decide) (by decide) (by decide)

/-- **C6 counterexample**: a single `BYTE` constant of 31 characters is
emitted as one Text record of 31 bytes — the 30-byte cap is violated (the
record builder never splits a single oversized byte sequence). -/
theorem C6_counterexample :
    (pass2Run ["START 0", bigByteLine] [("B", 0)] 0).map
      (fun r => r.textRecords.map (fun t => sumBytes t.items)) = .ok [31] ∧
    ¬(31 ≤ 30) := by decide

/-- **C6 amended**: every Text record produced by a Pass-2 run carries
bytes at contiguous addresses starting at its header address, its stated
byte count equals half the hex-digit length of its payload, and it is
within the 30-byte cap unless it consists of a single emitted byte
sequence that itself exceeds 30 bytes. -/
theorem C6_record_invariants :
    ∀ (lines : List String) (symtab : List (String × Int)) (startAddr : Int)
      (res : Pass2Result),
      pass2Run lines symtab startAddr = .ok res →
      ∀ r ∈ res.textRecords,
        contigB r.start r.items = true ∧
        (sumBytes r.items ≤ 30 ∨ r.items.length = 1) ∧
        renderTextRec r = "T^" ++ format_hex r.start 6 ++ "^" ++
          format_hex
            ((((String.join (r.items.map (fun it => it.2))).data.length / 2 : Nat)) : Int) 2 ++
          "^" ++ String.join (r.items.map (fun it => it.2)) := by
  intro lines symtab sa res heq r hr
  have hinit : stInv ⟨[], none⟩ := by
    constructor
    · intro r hr
      simp at hr
    · intro o ho
      simp at ho
  have hP := pass2Aux_inv lines symtab sa none ⟨[], none⟩ [] [] res hinit heq r hr
  exact ⟨hP.1, hP.2.1, rfl⟩

/-- Witness for C6: the single record of Scenario 2. -/
theorem C6_record_invariants_witness :
    contigB 0 [((0 : Int), "032003"), ((3 : Int), "000007")] = true ∧
    (sumBytes [((0 : Int), "032003"), ((3 : Int), "000007")] ≤ 30 ∨
      ([((0 : Int), "032003"), ((3 : Int), "000007")] : List (Int × String)).length = 1) ∧
    renderTextRec ⟨0, [(0, "032003"), (3, "000007")]⟩ = "T^" ++ format_hex 0 6 ++ "^" ++
      format_hex
        ((((String.join ([((0 : Int), "032003"), ((3 : Int), "000007")].map
          (fun it => it.2))).data.length / 2 : Nat)) : Int) 2 ++
      "^" ++ String.join ([((0 : Int), "032003"), ((3 : Int), "000007")].map (fun it => it.2)) :=
  C6_record_invariants sc2Lines [("LBL", 3)] 0 _ rfl
    ⟨0, [(0, "032003"), (3, "000007")]⟩ (by decide)

/-- **C7** (code is wrong): `P START 1A` has an operand that parses as a
number (hex 26), but Pass 1 raises an uncaught `ValueError` instead of
succeeding: `is_number` admits the hex string, so the `START` branch calls
the decimal `int(operand)` (pass1.py line 121), and the hex fallback in the
`else` branch (lines 124-127) is unreachable. -/
theorem C7_start_hex_crashes :
    is_numberStr "1A" = true ∧ pyIntHex? "1A" = some 26 ∧ pyIntDec? "1A" = none ∧
    pass1Run ["P START 1A"] =
      .error "ValueError: invalid literal for int() with base 10" := by decide

/-- **C8 counterexample**: after Pass 1 on Scenario 1 the symbol table is
empty — the `START` branch `continue`s (pass1.py line 135) before the
label-insertion code (lines 141-144), so `COPY` is never entered. -/
theorem C8_counterexample :
    (pass1Run sc1Lines).map (fun r => r.symtab) = .ok [] ∧
    ([] : List (String × Int)) ≠ [("COPY", 1000)] := by decide

/-- **C8 amended**: after assembling Scenario 1 the symbol table is empty;
the label `COPY` on the `START` line is recorded as the program name, not
entered into the symbol table, and the start address is 1000. -/
theorem C8_start_label_is_program_name :
    (pass1Run sc1Lines).map
      (fun r => (r.symtab, r.programName, r.startAddr, r.programLength)) =
      .ok ([], some "COPY", 1000, 6) := by decide

/-- **C9 counterexample**: preprocessing is not idempotent — a second
application can strip a second line-number-like prefix:
`preprocess "1 2 X" = "2 X"` but `preprocess "2 X" = "X"`. -/
theorem C9_counterexample :
    preprocessLine (preprocessLine "1 2 X") ≠ preprocessLine "1 2 X" ∧
    preprocessLine "1 2 X" = "2 X" ∧ preprocessLine "2 X" = "X" := by decide

/-- **C9 amended**: preprocessing is idempotent on every input whose
preprocessed form does not itself begin with a run of decimal digits
followed by whitespace (on such lines the second application strips a
further line-number-like prefix). -/
theorem C9_idempotent_unless_prefix :
    ∀ s : String, hasLineNumPfx (preprocessLine s).data = false →
      preprocessLine (preprocessLine s) = preprocessLine s := by
  intro s h
  have hdata : (preprocessLine s).data =
      pyStrip (stripComment (stripLineNum (pyStrip s.data))) := rfl
  have h1 : pyStrip (preprocessLine s).data = (preprocessLine s).data := by
    rw [hdata]
    exact pyStrip_idem _
  have hsemi : ';' ∉ (preprocessLine s).data := by
    rw [hdata]
    intro hm
    exact stripComment_no_semi (mem_pyStrip hm)
  have h2 : stripComment (preprocessLine s).data = (preprocessLine s).data :=
    stripComment_of_no_semi hsemi
  have h3 : stripLineNum (preprocessLine s).data = (preprocessLine s).data := by
    rw [hasLineNumPfx, Bool.and_eq_false_iff, decide_eq_false_iff_not,
      decide_eq_false_iff_not] at h
    simp only [stripLineNum]
    rw [if_neg]
    intro hc
    rcases h with hx | hx
    · exact hx hc.1
    · exact hx hc.2
  show String.mk (pyStrip (stripComment (stripLineNum
      (pyStrip (preprocessLine s).data)))) = preprocessLine s
  rw [h1, h3, h2, h1]

/-- Witness for C9: a line with one line-number prefix and a comment. -/
theorem C9_idempotent_unless_prefix_witness :
    hasLineNumPfx (preprocessLine "12 LDA X ;c").data = false ∧
    preprocessLine (preprocessLine "12 LDA X ;c") = preprocessLine "12 LDA X ;c" :=
  ⟨by decide, C9_idempotent_unless_prefix "12 LDA X ;c" (by decide)⟩

/-- **C10 counterexample**: the extended instruction `+LDA #1A` raises
inside `generate_format4_code` (decimal `int("1A")`), the exception is
caught, and the fallback advances `LOCCTR` by 3 — but the instruction's
length (as Pass 1 assigns it) is 4, so "LOCCTR is still advanced by the
instruction's length" fails. -/
theorem C10_counterexample :
    encodeTry true "00" 3 (some "#1A") [] 0 none 0 [] =
      .error ("ValueError: invalid literal for int() with base 10", []) ∧
    encodeWithFallback true "00" 3 (some "#1A") [] 0 none 0 [] = ("000000", 3, []) ∧
    (pass1Run ["+LDA #1A"]).map (fun r => r.programLength) = .ok 4 ∧
    (3 : Int) ≠ 4 := by decide

/-- **C10 amended**: a per-format encoding failure for a table mnemonic
never aborts Pass 2: the exception is caught and the line's action is the
fallback — opcode byte padded to the *base format's* length (`opcode+"00"`
for format 2, `opcode+"0000"` for format 3) with `LOCCTR` advanced by that
base-format length (1, 2 or 3), which for a failed extended (`+`)
instruction is 3 rather than the instruction's own length 4 — and assembly
continues with the next line. -/
theorem C10_fallback_on_encoding_failure :
    ∀ (symtab : List (String × Int)) (locctr : Int) (baseAddr : Option Int)
      (mods : List String) (line : String) (lbl : Option String) (op : String)
      (opnd : Option String) (hex : String) (fmt : Nat) (msg : String)
      (mods2 : List String),
      parse_line line = (lbl, some op, opnd) →
      inDIRECTIVES op = false →
      (inOPCODES op || strStarts op "+") = true →
      resolveOpcode op = some (hex, fmt) →
      encodeTry (strStarts op "+") hex fmt opnd symtab locctr baseAddr locctr mods =
        .error (msg, mods2) →
      pass2LineAct symtab locctr baseAddr mods line =
        .ok (.step [p2OutLine locctr line (encodeFallback hex fmt mods2).1]
              (encodeFallback hex fmt mods2).1
              (locctr + (encodeFallback hex fmt mods2).2.1)
              baseAddr (encodeFallback hex fmt mods2).2.2 false) := by
  intro symtab locctr baseAddr mods line lbl op opnd hex fmt msg mods2
    hparse hdir hguard hres herr
  have hns : op ≠ "START" := by
    intro heq
    rw [heq] at hdir
    exact absurd hdir (by decide)
  unfold pass2LineAct
  rw [hparse]
  simp [hns, hdir, hguard, hres, encodeWithFallback, herr]

/-- Witness for C10: the failing `+LDA #1A` at address 0. -/
theorem C10_fallback_witness :
    pass2LineAct [] 0 none [] "+LDA #1A" =
      .ok (.step [p2OutLine 0 "+LDA #1A" (encodeFallback "00" 3 []).1]
            (encodeFallback "00" 3 []).1 (0 + (encodeFallback "00" 3 []).2.1)
            none (encodeFallback "00" 3 []).2.2 false) :=
  C10_fallback_on_encoding_failure [] 0 none [] "+LDA #1A" none "+LDA"
    (some "#1A") "00" 3 "ValueError: invalid literal for int() with base 10" []
    (by decide) (by decide) (by decide) (by decide) (by decide)

end SICXE
